import Mathlib

/-!
Verification of the admission-controller webhook handler (main.go).

The handler receives a Kubernetes AdmissionReview over HTTP, checks that the
request concerns a Pod, decodes the embedded Pod, aggregates per-container
CPU and memory requests, and answers with an AdmissionReview envelope.

The embedding below mirrors the Go source. JSON (un)marshalling of the HTTP
body and of the embedded object bytes is modelled abstractly: a request body
either fails to read, fails to unmarshal, or unmarshals to a given
AdmissionReview value; the raw object bytes either unmarshal to a given Pod
or fail with an error message. Kubernetes resource quantities
(k8s.io/apimachinery resource.Quantity) are exact scaled decimals or
binary-scaled integers, so they are modelled as rationals with exact
addition; the suffix m denotes a factor 10 ^ -3 and Mi a factor 2 ^ 20.
-/

namespace AdmissionController

/-- Model of apimachinery TypeMeta: the kind and apiVersion fields of an
envelope. The Go zero value has both fields empty. -/
structure TypeMeta where
  kind : String
  apiVersion : String
deriving DecidableEq, Repr

/-- Model of GroupVersionKind (the Request.Kind triple). -/
structure GroupVersionKind where
  group : String
  version : String
  kind : String
deriving DecidableEq, Repr

/-- Model of resource.Quantity: an exact (non floating point) scaled number. -/
abbrev Quantity := Rat

/-- The quantity written with suffix m, e.g. 500m = 500 / 1000. -/
def Quantity.milli (n : Nat) : Quantity := mkRat n 1000

/-- The quantity written with suffix Mi, e.g. 128Mi = 128 * 2 ^ 20. -/
def Quantity.mebi (n : Nat) : Quantity := mkRat (n * 1048576) 1

/-- A Requests or Limits mapping, keyed by resource name. -/
abbrev ResourceList := List (String × Quantity)

/-- corev1.ResourceCPU -/
def resourceCPU : String := "cpu"

/-- corev1.ResourceMemory -/
def resourceMemory : String := "memory"

/-- Model of corev1.ResourceRequirements. -/
structure ResourceRequirements where
  limits : ResourceList
  requests : ResourceList
deriving DecidableEq, Repr

/-- Model of corev1.Container: only the fields the handler reads. -/
structure Container where
  name : String
  resources : ResourceRequirements
deriving DecidableEq, Repr

/-- Model of corev1.PodSpec: only the fields the handler reads. -/
structure PodSpec where
  containers : List Container
deriving DecidableEq, Repr

/-- Model of corev1.Pod. -/
structure Pod where
  spec : PodSpec
deriving DecidableEq, Repr

/-- Model of Request.Object.Raw, the embedded object bytes: either they
unmarshal into a Pod value, or json.Unmarshal fails with an error message. -/
inductive RawObject where
  | podBytes (pod : Pod)
  | badBytes (errMsg : String)
deriving DecidableEq, Repr

/-- Model of admissionv1.AdmissionRequest: only the fields the handler reads. -/
structure AdmissionRequest where
  uid : String
  kind : GroupVersionKind
  object : RawObject
deriving DecidableEq, Repr

/-- Model of admissionv1.AdmissionResponse: only the fields the handler sets. -/
structure AdmissionResponse where
  uid : String
  allowed : Bool
deriving DecidableEq, Repr

/-- Model of admissionv1.AdmissionReview. Request and Response are pointers
in Go, hence Option here (the Go nil is none). -/
structure AdmissionReview where
  typeMeta : TypeMeta
  request : Option AdmissionRequest
  response : Option AdmissionResponse
deriving DecidableEq, Repr

/-- Model of the incoming HTTP request body: reading it may fail
(io.ReadAll error), unmarshalling may fail (json.Unmarshal error), or it
unmarshals into an AdmissionReview value. -/
inductive RequestBody where
  | unreadable (errMsg : String)
  | invalidJson (errMsg : String)
  | wellFormed (ar : AdmissionReview)
deriving DecidableEq, Repr

/-- parseAdmissionReview (main.go lines 33 to 48): reads and unmarshals the
body, returning a nil pointer (here: error) on either failure. -/
def parseAdmissionReview : RequestBody → Except String AdmissionReview
  | .unreadable e => .error e
  | .invalidJson e => .error e
  | .wellFormed ar => .ok ar

/-- The body of an HTTP response written by the handler: either plain text
(the httpError path) or a JSON-encoded AdmissionReview envelope. -/
inductive ResponseBody where
  | plainText (msg : String)
  | admissionReviewJson (ar : AdmissionReview)
deriving DecidableEq, Repr

/-- Observable outcome of one handler invocation: either the goroutine
panics (a nil pointer dereference; no status or body is written), or an
HTTP response with a status code and body is written. -/
inductive HandlerResult where
  | panics
  | httpResponse (status : Nat) (body : ResponseBody)
deriving DecidableEq, Repr

/-- The cpu entry of a container Requests map, if present
(container.Resources.Requests[corev1.ResourceCPU]). -/
def cpuRequest (c : Container) : Option Quantity :=
  c.resources.requests.lookup resourceCPU

/-- The memory entry of a container Requests map, if present
(container.Resources.Requests[corev1.ResourceMemory]). -/
def memRequest (c : Container) : Option Quantity :=
  c.resources.requests.lookup resourceMemory

/-- One iteration of the aggregation loop (main.go lines 73 to 85): add the
cpu entry to the first accumulator and the memory entry to the second, each
only when present. -/
def accumulate (acc : Quantity × Quantity) (c : Container) : Quantity × Quantity :=
  let acc1 := match cpuRequest c with
    | some cpu => (acc.1 + cpu, acc.2)
    | none => acc
  match memRequest c with
  | some mem => (acc1.1, acc1.2 + mem)
  | none => acc1

/-- The aggregation loop: totalCPU and totalMemory start at the Quantity
zero value and accumulate over the containers in order. -/
def aggregateTotals (cs : List Container) : Quantity × Quantity :=
  cs.foldl accumulate (0, 0)

/-- The per-container log lines emitted by the aggregation loop. -/
def containerLogLines (cs : List Container) : List String :=
  cs.foldl (fun l c =>
    let l1 := match cpuRequest c with
      | some _ => l ++ ["Container " ++ c.name ++ " requests CPU"]
      | none => l
    match memRequest c with
    | some _ => l1 ++ ["Container " ++ c.name ++ " requests memory"]
    | none => l1) []

/-- httpError (main.go lines 26 to 30): log the error and write an HTTP 400
response whose body is the plain error text. -/
def httpError (log : List String) (errMsg : String) : HandlerResult × List String :=
  (.httpResponse 400 (.plainText errMsg),
   log ++ ["unable to complete request: " ++ errMsg])

/-- handleAdmissionReview (main.go lines 51 to 107). The log sink (the only
cross-request state the process has) is threaded explicitly. The parse
error is never inspected: when parseAdmissionReview returns nil, or the
parsed envelope has a nil Request, the kind check dereferences a nil
pointer and the invocation panics. -/
def handleAdmissionReview (body : RequestBody) (log : List String) :
    HandlerResult × List String :=
  let log := log ++ ["In handleAdmissionReview ..."]
  match parseAdmissionReview body with
  | .error _ => (.panics, log)
  | .ok ar =>
    match ar.request with
    | none => (.panics, log)
    | some req =>
      if req.kind.kind ≠ "Pod" then
        httpError log ("expected request for kind Pod but got " ++ req.kind.kind)
      else
        match req.object with
        | .badBytes e => httpError log e
        | .podBytes pod =>
          let totals := aggregateTotals pod.spec.containers
          let log := log ++ ["Successfully decoded AdmissionReview"] ++
            containerLogLines pod.spec.containers ++
            ["Total Memory Requested: " ++ toString totals.2,
             "Total CPU Requested: " ++ toString totals.1]
          let admissionResponse : AdmissionResponse := { uid := req.uid, allowed := true }
          let admissionReviewResponse : AdmissionReview :=
            { typeMeta := { kind := "", apiVersion := "" },
              request := none,
              response := some admissionResponse }
          (.httpResponse 200 (.admissionReviewJson admissionReviewResponse), log)

/-- Spec-side definition, for comparison with aggregateTotals: the exact
decimal sum of the cpu entries of Resources.Requests over all containers
that have such an entry. -/
def specCpuTotal (pod : Pod) : Quantity :=
  (pod.spec.containers.filterMap cpuRequest).sum

/-- Spec-side definition, for comparison with aggregateTotals: the exact
decimal sum of the memory entries of Resources.Requests over all containers
that have such an entry. -/
def specMemTotal (pod : Pod) : Quantity :=
  (pod.spec.containers.filterMap memRequest).sum

/-- The aggregation loop, started from any accumulator pair, adds exactly
the sums of the present cpu and memory entries. -/
theorem foldl_accumulate (cs : List Container) (a b : Quantity) :
    cs.foldl accumulate (a, b) =
      (a + (cs.filterMap cpuRequest).sum, b + (cs.filterMap memRequest).sum) := by
  induction cs generalizing a b with
  | nil => simp
  | cons c cs ih =>
    simp only [List.foldl_cons]
    cases hc : cpuRequest c <;> cases hm : memRequest c <;>
      simp [accumulate, hc, hm, ih, List.filterMap_cons, add_assoc]

/-- aggregateTotals computes the pair of exact sums of the present cpu and
memory request entries. -/
theorem aggregateTotals_spec (cs : List Container) :
    aggregateTotals cs =
      ((cs.filterMap cpuRequest).sum, (cs.filterMap memRequest).sum) := by
  have h := foldl_accumulate cs 0 0
  simpa [aggregateTotals] using h

/-- C2: the aggregate CPU total equals the exact decimal sum of the cpu
entries of Resources.Requests over the containers that have one (likewise
memory); containers lacking an entry contribute nothing, and the addition
is exact: 500m + 500m = 1 and 250m + 750m = 1 exactly. -/
theorem totals_are_exact_sums (pod : Pod) :
    (aggregateTotals pod.spec.containers).1 = specCpuTotal pod ∧
    (aggregateTotals pod.spec.containers).2 = specMemTotal pod ∧
    Quantity.milli 500 + Quantity.milli 500 = (1 : Quantity) ∧
    Quantity.milli 250 + Quantity.milli 750 = (1 : Quantity) := by
  refine ⟨?_, ?_,
      by norm_num [Quantity.milli, Rat.mkRat_eq_div],
      by norm_num [Quantity.milli, Rat.mkRat_eq_div]⟩ <;>
    simp [aggregateTotals_spec, specCpuTotal, specMemTotal]

/-- C10: the totals depend only on the cpu and memory entries of each
container Requests map; other resource names and all Limits entries never
affect them. -/
theorem totals_depend_only_on_cpu_memory (p1 p2 : Pod)
    (h : p1.spec.containers.map (fun c => (cpuRequest c, memRequest c)) =
         p2.spec.containers.map (fun c => (cpuRequest c, memRequest c))) :
    aggregateTotals p1.spec.containers = aggregateTotals p2.spec.containers := by
  have hcpu : p1.spec.containers.filterMap cpuRequest =
      p2.spec.containers.filterMap cpuRequest := by
    have h1 := congrArg (List.filterMap Prod.fst) h
    simpa [List.filterMap_map, Function.comp] using h1
  have hmem : p1.spec.containers.filterMap memRequest =
      p2.spec.containers.filterMap memRequest := by
    have h2 := congrArg (List.filterMap Prod.snd) h
    simpa [List.filterMap_map, Function.comp] using h2
  simp [aggregateTotals_spec, hcpu, hmem]

/-- A pod with one container requesting cpu 100m and memory 128Mi, plus an
ephemeral-storage request and cpu and memory limits. -/
def podWithExtras : Pod :=
  { spec := { containers := [
      { name := "app",
        resources := {
          limits := [(resourceCPU, Quantity.milli 200),
                     (resourceMemory, Quantity.mebi 256)],
          requests := [(resourceCPU, Quantity.milli 100),
                       (resourceMemory, Quantity.mebi 128),
                       ("ephemeral-storage", Quantity.mebi 512)] } }] } }

/-- The same pod stripped of the ephemeral-storage request and of all
limits. -/
def podPlain : Pod :=
  { spec := { containers := [
      { name := "app",
        resources := {
          limits := [],
          requests := [(resourceCPU, Quantity.milli 100),
                       (resourceMemory, Quantity.mebi 128)] } }] } }

/-- C10 witness: the extra entries make no difference at a concrete pod. -/
theorem totals_depend_only_on_cpu_memory_witness :
    aggregateTotals podWithExtras.spec.containers =
      aggregateTotals podPlain.spec.containers :=
  totals_depend_only_on_cpu_memory podWithExtras podPlain rfl

/-- On the happy path (well-formed envelope, non-nil Request of kind Pod,
object bytes that unmarshal to a Pod) the handler writes HTTP 200 with an
envelope holding empty TypeMeta, no request, and an allowed response that
echoes the request UID. -/
theorem handle_ok_pod_result (ar : AdmissionReview) (req : AdmissionRequest)
    (pod : Pod) (log : List String) (hreq : ar.request = some req)
    (hkind : req.kind.kind = "Pod") (hobj : req.object = .podBytes pod) :
    (handleAdmissionReview (.wellFormed ar) log).1 =
      .httpResponse 200 (.admissionReviewJson
        { typeMeta := { kind := "", apiVersion := "" },
          request := none,
          response := some { uid := req.uid, allowed := true } }) := by
  simp [handleAdmissionReview, parseAdmissionReview, hreq, hkind, hobj]

/-- The end-to-end scenario pod: two containers, one requesting cpu 500m
and memory 128Mi, the other cpu 500m and memory 256Mi. -/
def podTwo : Pod :=
  { spec := { containers := [
      { name := "c1",
        resources := {
          limits := [],
          requests := [(resourceCPU, Quantity.milli 500),
                       (resourceMemory, Quantity.mebi 128)] } },
      { name := "c2",
        resources := {
          limits := [],
          requests := [(resourceCPU, Quantity.milli 500),
                       (resourceMemory, Quantity.mebi 256)] } }] } }

/-- A well-formed AdmissionRequest of kind Pod carrying podTwo. -/
def reqPod : AdmissionRequest :=
  { uid := "705ab4f5-6393-11e8-b7cc-42010a800002",
    kind := { group := "", version := "v1", kind := "Pod" },
    object := .podBytes podTwo }

/-- A well-formed inbound AdmissionReview envelope around reqPod. -/
def arPod : AdmissionReview :=
  { typeMeta := { kind := "AdmissionReview", apiVersion := "admission.k8s.io/v1" },
    request := some reqPod,
    response := none }

/-- C1: for every well-formed AdmissionReview request of kind Pod whose
embedded object parses as a Pod, the UID of the emitted AdmissionResponse
equals the UID of the incoming request exactly. -/
theorem response_uid_echoes_request_uid (ar : AdmissionReview)
    (req : AdmissionRequest) (pod : Pod) (log : List String)
    (hreq : ar.request = some req) (hkind : req.kind.kind = "Pod")
    (hobj : req.object = .podBytes pod) :
    ∃ out : AdmissionReview, ∃ resp : AdmissionResponse,
      (handleAdmissionReview (.wellFormed ar) log).1 =
        .httpResponse 200 (.admissionReviewJson out) ∧
      out.response = some resp ∧ resp.uid = req.uid :=
  ⟨_, _, handle_ok_pod_result ar req pod log hreq hkind hobj, rfl, rfl⟩

/-- C1 witness at a concrete request. -/
theorem response_uid_echoes_request_uid_witness :
    ∃ out : AdmissionReview, ∃ resp : AdmissionResponse,
      (handleAdmissionReview (.wellFormed arPod) []).1 =
        .httpResponse 200 (.admissionReviewJson out) ∧
      out.response = some resp ∧ resp.uid = reqPod.uid :=
  response_uid_echoes_request_uid arPod reqPod podTwo [] rfl rfl rfl

/-- C5: for every request that passes the kind check and whose object
parses as a Pod, the AdmissionResponse has Allowed = true, whatever the
contents of the Pod. -/
theorem allowed_unconditionally (ar : AdmissionReview) (req : AdmissionRequest)
    (pod : Pod) (log : List String) (hreq : ar.request = some req)
    (hkind : req.kind.kind = "Pod") (hobj : req.object = .podBytes pod) :
    ∃ resp : AdmissionResponse,
      (handleAdmissionReview (.wellFormed ar) log).1 =
        .httpResponse 200 (.admissionReviewJson
          { typeMeta := { kind := "", apiVersion := "" },
            request := none, response := some resp }) ∧
      resp.allowed = true :=
  ⟨_, handle_ok_pod_result ar req pod log hreq hkind hobj, rfl⟩

/-- C5 witness at a concrete request. -/
theorem allowed_unconditionally_witness :
    ∃ resp : AdmissionResponse,
      (handleAdmissionReview (.wellFormed arPod) []).1 =
        .httpResponse 200 (.admissionReviewJson
          { typeMeta := { kind := "", apiVersion := "" },
            request := none, response := some resp }) ∧
      resp.allowed = true :=
  allowed_unconditionally arPod reqPod podTwo [] rfl rfl rfl

/-- C6: the source builds the outbound envelope without setting TypeMeta,
so even when the inbound envelope carries apiVersion admission.k8s.io/v1
the outbound envelope has empty apiVersion and kind: the emitted envelope
does not carry the API version of the request. -/
theorem outbound_envelope_typemeta_empty :
    ∃ out : AdmissionReview,
      (handleAdmissionReview (.wellFormed arPod) []).1 =
        .httpResponse 200 (.admissionReviewJson out) ∧
      arPod.typeMeta.apiVersion = "admission.k8s.io/v1" ∧
      out.typeMeta.apiVersion = "" ∧ out.typeMeta.kind = "" :=
  ⟨_, handle_ok_pod_result arPod reqPod podTwo [] rfl rfl rfl, rfl, rfl, rfl⟩

/-- C3: contrary to the claim, a body that is not valid JSON never gets an
HTTP 400 plain-text response: parseAdmissionReview returns nil and the
kind check dereferences the nil pointer, so the invocation panics before
httpError can run. -/
theorem invalid_json_body_panics :
    (handleAdmissionReview (.invalidJson "invalid character") []).1 = .panics ∧
    ∀ b : ResponseBody,
      (handleAdmissionReview (.invalidJson "invalid character") []).1 ≠
        .httpResponse 400 b :=
  ⟨rfl, fun _ h => nomatch h⟩

/-- C4: a parsed request whose non-nil Request has Kind.Kind other than
Pod gets HTTP 400 with a message naming the actual kind, and never an
HTTP 200 response. -/
theorem wrong_kind_http400 (ar : AdmissionReview) (req : AdmissionRequest)
    (log : List String) (hreq : ar.request = some req)
    (hkind : req.kind.kind ≠ "Pod") :
    (handleAdmissionReview (.wellFormed ar) log).1 =
      .httpResponse 400
        (.plainText ("expected request for kind Pod but got " ++ req.kind.kind)) ∧
    ∀ b : ResponseBody,
      (handleAdmissionReview (.wellFormed ar) log).1 ≠ .httpResponse 200 b := by
  have h400 : (handleAdmissionReview (.wellFormed ar) log).1 =
      .httpResponse 400
        (.plainText ("expected request for kind Pod but got " ++ req.kind.kind)) := by
    simp [handleAdmissionReview, parseAdmissionReview, hreq, hkind, httpError]
  refine ⟨h400, ?_⟩
  intro b h
  rw [h400] at h
  simp at h

/-- A request for a Deployment rather than a Pod. -/
def reqDeploy : AdmissionRequest :=
  { uid := "8f6c2a1e-0000-0000-0000-42010a800002",
    kind := { group := "apps", version := "v1", kind := "Deployment" },
    object := .badBytes "not inspected" }

/-- A well-formed inbound envelope around reqDeploy. -/
def arDeploy : AdmissionReview :=
  { typeMeta := { kind := "AdmissionReview", apiVersion := "admission.k8s.io/v1" },
    request := some reqDeploy,
    response := none }

/-- C4 witness at a concrete Deployment request. -/
theorem wrong_kind_http400_witness :
    (handleAdmissionReview (.wellFormed arDeploy) []).1 =
      .httpResponse 400
        (.plainText ("expected request for kind Pod but got " ++ reqDeploy.kind.kind)) ∧
    ∀ b : ResponseBody,
      (handleAdmissionReview (.wellFormed arDeploy) []).1 ≠ .httpResponse 200 b :=
  wrong_kind_http400 arDeploy reqDeploy [] rfl (by decide)

/-- C7: a parsed request of kind Pod whose Request.Object bytes do not
unmarshal as a Pod gets HTTP 400 carrying the parse error text. -/
theorem bad_pod_bytes_http400 (ar : AdmissionReview) (req : AdmissionRequest)
    (log : List String) (e : String) (hreq : ar.request = some req)
    (hkind : req.kind.kind = "Pod") (hobj : req.object = .badBytes e) :
    (handleAdmissionReview (.wellFormed ar) log).1 =
      .httpResponse 400 (.plainText e) := by
  simp [handleAdmissionReview, parseAdmissionReview, hreq, hkind, hobj, httpError]

/-- A request of kind Pod whose object bytes fail to unmarshal as a Pod. -/
def reqBadObj : AdmissionRequest :=
  { uid := "11111111-2222-3333-4444-555555555555",
    kind := { group := "", version := "v1", kind := "Pod" },
    object := .badBytes "json: cannot unmarshal string into Go struct field" }

/-- A well-formed inbound envelope around reqBadObj. -/
def arBadObj : AdmissionReview :=
  { typeMeta := { kind := "AdmissionReview", apiVersion := "admission.k8s.io/v1" },
    request := some reqBadObj,
    response := none }

/-- C7 witness at a concrete request with bad object bytes. -/
theorem bad_pod_bytes_http400_witness :
    (handleAdmissionReview (.wellFormed arBadObj) []).1 =
      .httpResponse 400
        (.plainText "json: cannot unmarshal string into Go struct field") :=
  bad_pod_bytes_http400 arBadObj reqBadObj []
    "json: cannot unmarshal string into Go struct field" rfl rfl rfl

/-- C8: the observable handler result depends only on the request body:
whatever log state earlier invocations left behind, identical bodies give
identical results (status, decision, UID). -/
theorem handler_log_state_independent (body : RequestBody)
    (log1 log2 : List String) :
    (handleAdmissionReview body log1).1 = (handleAdmissionReview body log2).1 := by
  cases body with
  | unreadable e => rfl
  | invalidJson e => rfl
  | wellFormed ar =>
    obtain ⟨tm, oreq, oresp⟩ := ar
    cases oreq with
    | none => rfl
    | some req =>
      obtain ⟨uid, kd, obj⟩ := req
      by_cases hk : kd.kind = "Pod"
      · cases obj with
        | podBytes pod => simp [handleAdmissionReview, parseAdmissionReview, hk]
        | badBytes e => simp [handleAdmissionReview, parseAdmissionReview, hk, httpError]
      · simp [handleAdmissionReview, parseAdmissionReview, hk, httpError]

/-- C9: when parsing fails (parseAdmissionReview returns nil) or the
parsed envelope has a nil Request (the body is for instance just braces),
the kind check dereferences a nil pointer: the invocation panics and the
HTTP 400 error branch is never reached. -/
theorem nil_dereference_panics (e : String) (ar : AdmissionReview)
    (log : List String) (h : ar.request = none) :
    (handleAdmissionReview (.invalidJson e) log).1 = .panics ∧
    (handleAdmissionReview (.wellFormed ar) log).1 = .panics := by
  refine ⟨rfl, ?_⟩
  obtain ⟨tm, oreq, oresp⟩ := ar
  cases oreq with
  | none => rfl
  | some req => exact Option.noConfusion h

/-- The envelope an empty JSON object body parses to: every field at its
zero value, in particular a nil Request. -/
def emptyReview : AdmissionReview :=
  { typeMeta := { kind := "", apiVersion := "" },
    request := none,
    response := none }

/-- C9 witness: a concrete unparsable body and the empty-object body. -/
theorem nil_dereference_panics_witness :
    (handleAdmissionReview (.invalidJson "unexpected end of JSON input") []).1 =
      .panics ∧
    (handleAdmissionReview (.wellFormed emptyReview) []).1 = .panics :=
  nil_dereference_panics "unexpected end of JSON input" emptyReview [] rfl

end AdmissionController
